import Mathlib

/-!
Verification of the healthcare CSV-to-document-store migration.

The embedding models `src/migration.py` (the canonical variant) together
with the points where `src/script.py` (the superseded variant) differs.
External collaborators are modelled as follows:

* pandas missing values (NaN) are `Option.none` on the raw row fields;
* `pandas.to_datetime` is modelled by `pdToDatetime`, a deterministic
  partial parser of ISO `YYYY-MM-DD` strings (failure of the model parser
  models the `ValueError` raised by the library on unparsable input);
* the MongoDB collections are lists of documents in insertion order;
  `find_one` returns the first document matching the filter, `insert_one`
  appends a document and assigns the next fresh identifier;
* Python dicts used as caches are association lists with append-on-new-key,
  looked up by structural key equality;
* a raised exception is `Option.none` at the level of a whole step or run.

Run state (`St`) carries the two collections, the two caches, the two
`created_*` counters, the fresh-id source, instrumentation counters for
store reads, and a log of the patient ids handed back to the driver loop.
-/

namespace Migration

/-! ## Python string primitives (ASCII model of `str.strip` / `str.title`) -/

/-- Model of Python `str.strip`: drop leading and trailing whitespace. -/
def pyStrip (s : String) : String :=
  String.mk (((s.data.dropWhile Char.isWhitespace).reverse.dropWhile Char.isWhitespace).reverse)

/-- Model of Python `str.title` on ASCII data: an alphabetic character is
uppercased when the previous character is not alphabetic and lowercased
otherwise; other characters pass through and reset the word boundary. -/
def pyTitleGo : Bool → List Char → List Char
  | _, [] => []
  | prevAlpha, c :: t =>
      if c.isAlpha then
        (if prevAlpha then c.toLower else c.toUpper) :: pyTitleGo true t
      else
        c :: pyTitleGo false t

/-- Model of Python `str.title` (ASCII). -/
def pyTitle (s : String) : String := String.mk (pyTitleGo false s.data)

/-! ## Normalizer (migration.py lines 51-78, script.py lines 20-30) -/

/-- `normalize_name` from migration.py lines 51-63 (identical in
script.py lines 20-23): `None` on a missing value, otherwise
`name_str.strip().title()`. -/
def normalize_name : Option String → Option String
  | none => none
  | some s => some (pyTitle (pyStrip s))

/-- Model of the external `pandas.to_datetime` parser: deterministic and
partial.  The model accepts exactly ISO `YYYY-MM-DD` digit strings and
encodes the date as `y*10000 + m*100 + d`; every other string fails,
modelling the `ValueError` the library raises on unparsable input. -/
def pdToDatetime (s : String) : Option Nat :=
  match s.data with
  | [y1, y2, y3, y4, h1, m1, m2, h2, d1, d2] =>
      if h1 = '-' ∧ h2 = '-' ∧ y1.isDigit ∧ y2.isDigit ∧ y3.isDigit ∧ y4.isDigit
          ∧ m1.isDigit ∧ m2.isDigit ∧ d1.isDigit ∧ d2.isDigit then
        some ((((y1.toNat - 48) * 1000 + (y2.toNat - 48) * 100 + (y3.toNat - 48) * 10
            + (y4.toNat - 48)) * 10000)
          + ((m1.toNat - 48) * 10 + (m2.toNat - 48)) * 100
          + ((d1.toNat - 48) * 10 + (d2.toNat - 48)))
      else none
  | _ => none

/-- `parse_date` from migration.py lines 65-78: returns `None` when the
value is missing (`pd.isna`), otherwise calls `pd.to_datetime` with no
exception handler.  The outer `Option` is the exception level: the result
`none` models the `ValueError` propagating out of the function, and
`some v` models a normal return of `v`. -/
def parse_date : Option String → Option (Option Nat)
  | none => some none
  | some s => (pdToDatetime s).map some

/-- `parse_date` from script.py lines 26-30, the superseded variant: the
bare `try/except` converts any parse failure into a `None` return, so the
function is total (never raises).  A missing value is passed to
`pd.to_datetime`, which yields `NaT`; `NaT` and `None` are both modelled
as `none` here. -/
def parse_date_script : Option String → Option Nat
  | none => none
  | some s => pdToDatetime s

/-! ## Row and document model -/

/-- Age attribute as it ends up inside a stored document.  pandas
represents a missing age as the float `NaN`; Python `None` becomes BSON
`null`.  The two are distinct stored values.  The derived structural
equality (`mnan = mnan`) is the document-store semantics: MongoDB matches
`NaN` against `NaN` in equality filters and groups `NaN` ages together.
CPython dict-key equality, where `NaN != NaN`, is modelled separately by
`pyKeyMatch`. -/
inductive MAge where
  | mint (n : Int)
  | mnan
  | mnull
deriving DecidableEq, Repr

/-- migration.py line 161: `age = data.age` passes the raw pandas value
through, so a missing age stays `NaN`. -/
def rawAge : Option Int → MAge
  | some n => MAge.mint n
  | none => MAge.mnan

/-- script.py line 107: `age = int(row.age) if not pd.isna(row.age) else
None`, so a missing age becomes `None` (BSON `null`). -/
def convAge : Option Int → MAge
  | some n => MAge.mint n
  | none => MAge.mnull

/-- One CSV row after column-name canonicalization, as produced by
`df.itertuples`.  `none` on an `Option` field is a pandas missing value. -/
structure Row where
  name : Option String
  age : Option Int
  gender : String
  blood_type : String
  date_of_admission : Option String
  discharge_date : Option String
  hospital : String
  room_number : Int
  medical_condition : String
  doctor : String
  insurance_provider : String
  billing_amount : Int
  admission_type : String
  medication : String
  test_results : String
deriving DecidableEq, Repr

/-- A document of the `patients` collection (migration.py lines 172-177). -/
structure PatientDoc where
  pid : Nat
  name : Option String
  age : MAge
  gender : String
  blood_type : String
deriving DecidableEq, Repr

/-- A document of the `admissions` collection (migration.py lines 215-228). -/
structure AdmissionDoc where
  aid : Nat
  patient_id : Nat
  medical_condition : String
  date_of_admission : Option Nat
  doctor : String
  hospital : String
  insurance_provider : String
  billing_amount : Int
  room_number : Int
  admission_type : String
  discharge_date : Option Nat
  medication : String
  test_results : String
deriving DecidableEq, Repr

/-- The patient identity key (migration.py line 165). -/
abbrev PKey := Option String × MAge × String × String

/-- The admission identity key (migration.py line 200). -/
abbrev AKey := Nat × Option Nat × String × Int

instance (priority := 2000) instDecEqPKey : DecidableEq PKey := inferInstance

instance (priority := 2000) instDecEqAKey : DecidableEq AKey := inferInstance

instance (priority := 2000) instDecEqListPKeyNat : DecidableEq (List (PKey × Nat)) :=
  inferInstance

instance (priority := 2000) instDecEqListAKeyNat : DecidableEq (List (AKey × Nat)) :=
  inferInstance

/-- The patient key computed from a row (migration.py lines 160-165). -/
def patientKeyOfRow (r : Row) : PKey :=
  (normalize_name r.name, rawAge r.age, r.gender, r.blood_type)

/-- The identity-key projection of a stored patient document; the
`find_one` filter `patient_doc` matches exactly on these four fields. -/
def pkeyOfDoc (d : PatientDoc) : PKey := (d.name, d.age, d.gender, d.blood_type)

/-- The identity-key projection of a stored admission document; the
`find_one` filter `admission_doc_find` matches exactly on these fields. -/
def akeyOfDoc (d : AdmissionDoc) : AKey :=
  (d.patient_id, d.date_of_admission, d.hospital, d.room_number)

/-- Python dict lookup on an association list, for keys none of whose
components is a float `NaN` (structural equality is then faithful to
CPython `==` on the tuples).  Used for the admissions cache, whose keys
are an ObjectId, a Timestamp-or-`None` (migration.py's `parse_date` maps
a missing date to `None`, and `None == None` holds), a string and an
integer. -/
def dictLookup {α β : Type} [DecidableEq α] (k : α) : List (α × β) → Option β
  | [] => none
  | e :: t => if e.1 = k then some e.2 else dictLookup k t

/-- CPython equality between a freshly built patient key and a stored
dict key: componentwise `==` with the identity shortcut.  A key whose
age component is the pandas float `NaN` never equals any stored key:
`NaN != NaN`, and `itertuples` boxes a fresh float object per row, so
the identity shortcut never fires.  All other components (strings,
ints) compare structurally. -/
def pyKeyMatch (stored k : PKey) : Bool :=
  decide (stored = k) && decide (k.2.1 ≠ MAge.mnan)

/-- Python dict lookup with patient-key tuples, as
`patient_key in patients_cache` / `patients_cache[patient_key]` behave
in CPython: a `NaN`-bearing key always misses. -/
def pyDictLookup (k : PKey) : List (PKey × Nat) → Option Nat
  | [] => none
  | e :: t => if pyKeyMatch e.1 k then some e.2 else pyDictLookup k t

/-! ## Run state -/

/-- The mutable state of one `main()` run of migration.py: the two
collections (the durable store), the two caches, the creation counters,
the fresh-identifier source for `insert_one`, two instrumentation
counters recording how many `find_one` store reads were issued, and the
log of `(patient_key, patient_id)` pairs returned by `process_patient`
to the driver loop. -/
structure St where
  patients : List PatientDoc
  admissions : List AdmissionDoc
  pcache : List (PKey × Nat)
  acache : List (AKey × Nat)
  created_patients : Nat
  created_admissions : Nat
  nextId : Nat
  patientReads : Nat
  admissionReads : Nat
  resolvedLog : List (PKey × Nat)
deriving DecidableEq, Repr

/-- The patient document inserted for a row (migration.py lines 172-177,
185): the same four attributes that form the identity key. -/
def mkPatientDoc (pid : Nat) (r : Row) : PatientDoc :=
  { pid := pid
    name := normalize_name r.name
    age := rawAge r.age
    gender := r.gender
    blood_type := r.blood_type }

/-- The admission document inserted for a row (migration.py lines
215-228): all row attributes, the owning patient id, and the parsed
dates. -/
def mkAdmissionDoc (aid patient_id : Nat) (doa dd : Option Nat) (r : Row) : AdmissionDoc :=
  { aid := aid
    patient_id := patient_id
    medical_condition := r.medical_condition
    date_of_admission := doa
    doctor := r.doctor
    hospital := r.hospital
    insurance_provider := r.insurance_provider
    billing_amount := r.billing_amount
    room_number := r.room_number
    admission_type := r.admission_type
    discharge_date := dd
    medication := r.medication
    test_results := r.test_results }

/-! ## Resolvers  (migration.py lines 154-231) -/

/-- `process_patient` from migration.py lines 154-189.  On a cache hit
the cached id is returned with no store access.  On a miss, append mode
(`drop = false`) issues one `find_one` with the four-attribute filter; if
a document is found its id is returned — and, exactly as in the source,
the cache is NOT updated on this path.  Otherwise a new document is
inserted, the cache records the new id, and the `created_patients`
counter is incremented.  The cache test uses CPython dict-key semantics
(`pyDictLookup`): a row whose age is missing carries a `NaN` in its key
and therefore never hits the cache. -/
def process_patient (drop : Bool) (st : St) (r : Row) : Nat × St :=
  match pyDictLookup (patientKeyOfRow r) st.pcache with
  | some pid => (pid, st)
  | none =>
    match (if drop then none
           else st.patients.find? fun d => decide (pkeyOfDoc d = patientKeyOfRow r)) with
    | some d =>
        (d.pid, if drop then st else { st with patientReads := st.patientReads + 1 })
    | none =>
        (st.nextId,
          { (if drop then st else { st with patientReads := st.patientReads + 1 }) with
            patients := st.patients ++ [mkPatientDoc st.nextId r]
            pcache := st.pcache ++ [(patientKeyOfRow r, st.nextId)]
            created_patients := st.created_patients + 1
            nextId := st.nextId + 1 })

/-- `process_admission` from migration.py lines 191-231.  Both dates are
parsed first (a parse exception aborts the step: outer `none`).  On a
cache hit nothing happens.  On a miss, append mode issues one `find_one`
with the filter `(patient_id, date_of_admission, hospital, room_number)`;
if a document is found the function returns without inserting and — as in
the source — without recording the key in the cache.  Otherwise the
document is inserted, the cache records the key, and the counter is
incremented. -/
def process_admission (drop : Bool) (st : St) (r : Row) (patient_id : Nat) : Option St :=
  match parse_date r.date_of_admission with
  | none => none
  | some date_of_admission =>
    match parse_date r.discharge_date with
    | none => none
    | some discharge_date =>
      match dictLookup (patient_id, date_of_admission, r.hospital, r.room_number) st.acache with
      | some _ => some st
      | none =>
        match (if drop then none
               else st.admissions.find? fun d =>
                 decide (akeyOfDoc d = (patient_id, date_of_admission, r.hospital, r.room_number))) with
        | some _ =>
            some (if drop then st else { st with admissionReads := st.admissionReads + 1 })
        | none =>
            some { (if drop then st else { st with admissionReads := st.admissionReads + 1 }) with
                   admissions := st.admissions
                     ++ [mkAdmissionDoc st.nextId patient_id date_of_admission discharge_date r]
                   acache := st.acache
                     ++ [((patient_id, date_of_admission, r.hospital, r.room_number), st.nextId)]
                   created_admissions := st.created_admissions + 1
                   nextId := st.nextId + 1 }

/-! ## Driver loop (migration.py lines 235-236) -/

/-- One iteration of the driver loop:
`process_admission(row, process_patient(row))`.  The id returned by
`process_patient` is logged together with the row key. -/
def runStep (drop : Bool) (st : St) (r : Row) : Option St :=
  let res := process_patient drop st r
  process_admission drop
    { res.2 with resolvedLog := res.2.resolvedLog ++ [(patientKeyOfRow r, res.1)] } r res.1

/-- The driver loop over the (already deduplicated) row sequence. -/
def runRows (drop : Bool) : St → List Row → Option St
  | st, [] => some st
  | st, r :: rs =>
      match runStep drop st r with
      | none => none
      | some st2 => runRows drop st2 rs

/-! ## Dataset loader (migration.py lines 129-142) -/

/-- Model of `df.duplicated()` with the default `keep` policy: a row is
flagged when an equal row occurred earlier. -/
def duplicatedGo (seen : List Row) : List Row → List Bool
  | [] => []
  | r :: t => decide (r ∈ seen) :: duplicatedGo (r :: seen) t

/-- The duplicate flags of a row sequence (migration.py line 139). -/
def duplicated (rows : List Row) : List Bool := duplicatedGo [] rows

/-- `df.duplicated().sum()`: the reported count of fully-duplicate rows. -/
def dupCount (rows : List Row) : Nat := (duplicated rows).count true

/-- Model of `df.drop_duplicates()` with the default `keep` policy: keep
each row whose equal has not occurred earlier (`seen` accumulates every
scanned row, exactly as in `duplicatedGo`). -/
def dropDupGo (seen : List Row) : List Row → List Row
  | [] => []
  | r :: t => if r ∈ seen then dropDupGo (r :: seen) t else r :: dropDupGo (r :: seen) t

/-- `df.drop_duplicates()` (migration.py line 141). -/
def dropDuplicates (rows : List Row) : List Row := dropDupGo [] rows

/-! ## A whole `main()` run -/

/-- The state at the start of the iteration phase: if the reset flag is
set both collections are dropped, otherwise the persistent store is kept;
caches, counters and instrumentation start empty either way. -/
def startState (drop : Bool) (p0 : List PatientDoc) (a0 : List AdmissionDoc) (n0 : Nat) : St :=
  { patients := if drop then [] else p0
    admissions := if drop then [] else a0
    pcache := []
    acache := []
    created_patients := 0
    created_admissions := 0
    nextId := n0
    patientReads := 0
    admissionReads := 0
    resolvedLog := [] }

/-- One `main()` run of migration.py over a persistent store
`(p0, a0)`: optional collection drop, full-row deduplication of the
input, then the driver loop.  `none` models an uncaught exception. -/
def migrationRun (drop : Bool) (p0 : List PatientDoc) (a0 : List AdmissionDoc)
    (n0 : Nat) (rows : List Row) : Option St :=
  runRows drop (startState drop p0 a0 n0) (dropDuplicates rows)

/-! ## Claim C2 -/

/-- Claim C2 fails on migration.py: `parse_date` there calls
`pd.to_datetime` with no exception handler, so an unparsable input such
as `"not-a-date"` raises (modelled by the result `none` at the exception
level) instead of returning null.  A missing input does return `None`
(`some none`), and the superseded script.py variant, whose `try/except`
matches the claim, returns null on the same input. -/
theorem claimC2_eval :
    parse_date (some "not-a-date") = none
      ∧ parse_date none = some none
      ∧ parse_date_script (some "not-a-date") = none := by decide

/-! ## Claim C6 -/

/-- Claim C6: `normalize_name` returns null on a missing input and
otherwise trims surrounding whitespace and title-cases the words; in
particular both examples from the specification hold. -/
theorem claimC6_thm :
    normalize_name none = none
      ∧ normalize_name (some "  john DOE ") = some "John Doe" := by decide

/-! ## Claim C3 -/

/-- A patient row used to exercise the append-mode store-hit path. -/
def c3row1 : Row :=
  { name := some "al", age := some 30, gender := "M", blood_type := "A+"
    date_of_admission := some "2020-01-02", discharge_date := some "2020-01-05"
    hospital := "H1", room_number := 101, medical_condition := "flu"
    doctor := "D1", insurance_provider := "I1", billing_amount := 500
    admission_type := "urgent", medication := "m1", test_results := "ok" }

/-- A second row with the same patient identity key as `c3row1`. -/
def c3row2 : Row := { c3row1 with room_number := 102 }

/-- A patient document already in the store whose attributes equal the
identity key of `c3row1` and `c3row2`. -/
def c3pat : PatientDoc :=
  { pid := 7, name := some "Al", age := MAge.mint 30, gender := "M", blood_type := "A+" }

/-- Claim C3 fails on migration.py: in append mode, when the cache
misses and the patient is found in the store, `process_patient` returns
the found id WITHOUT caching it (the cache write sits inside the insert
branch only).  Consequently two rows with the same (single) patient key
issue two store reads, the cache stays empty, and no patient is created.
The claim promises at most one store read for the one distinct key. -/
theorem claimC3_eval :
    (migrationRun false [c3pat] [] 8 [c3row1, c3row2]).map
        (fun st => (st.patientReads, st.pcache, st.created_patients, st.patients.length))
      = some (2, ([] : List (PKey × Nat)), 0, 1) := by decide

/-! ## Claim C4 -/

/-- A row used to exercise the append-mode admission store-hit path. -/
def c4row : Row :=
  { name := some "bo", age := some 40, gender := "F", blood_type := "B+"
    date_of_admission := some "2021-03-04", discharge_date := some "2021-03-09"
    hospital := "H2", room_number := 201, medical_condition := "asthma"
    doctor := "D2", insurance_provider := "I2", billing_amount := 800
    admission_type := "elective", medication := "m2", test_results := "normal" }

/-- The patient document for `c4row` already in the store. -/
def c4pat : PatientDoc :=
  { pid := 3, name := some "Bo", age := MAge.mint 40, gender := "F", blood_type := "B+" }

/-- An admission document already in the store matching the admission
key `(3, parsed date, hospital, room_number)` of `c4row`. -/
def c4adm : AdmissionDoc := mkAdmissionDoc 4 3 (some 20210304) (some 20210309) c4row

/-- Claim C4 as stated is false on the code: in append mode, when the
admission key misses the cache and a matching admission is found in the
store, `process_admission` returns without inserting (admission count
stays 1, counter stays 0, one store read was issued) but it does NOT
record the key in the cache — the cache is still empty afterwards. -/
theorem claimC4_counterexample :
    (migrationRun false [c4pat] [c4adm] 9 [c4row]).map
        (fun st => (st.acache, st.created_admissions, st.admissions.length, st.admissionReads))
      = some (([] : List (AKey × Nat)), 0, 1, 1) := by decide

/-- Claim C4 amended: in append mode, when the admission key misses the
cache, `process_admission` queries the store with the filter of exactly
`(patient_id, date_of_admission, hospital, room_number)`; if a matching
admission is found it returns without inserting and without recording
the key in the cache — the only state change is the store read. -/
theorem claimC4_thm (st : St) (r : Row) (pid : Nat) (doa dd : Option Nat) (d : AdmissionDoc)
    (h1 : parse_date r.date_of_admission = some doa)
    (h2 : parse_date r.discharge_date = some dd)
    (hmiss : dictLookup (pid, doa, r.hospital, r.room_number) st.acache = none)
    (hfound : st.admissions.find?
        (fun d => decide (akeyOfDoc d = (pid, doa, r.hospital, r.room_number))) = some d) :
    process_admission false st r pid
      = some { st with admissionReads := st.admissionReads + 1 } := by
  unfold process_admission
  simp only [h1, h2, hmiss, Bool.false_eq_true, if_false, hfound]

/-- Witness for the amended Claim C4 at a concrete state and row. -/
theorem claimC4_witness :
    process_admission false (startState false [c4pat] [c4adm] 9) c4row 3
      = some { startState false [c4pat] [c4adm] 9 with
               admissionReads := (startState false [c4pat] [c4adm] 9).admissionReads + 1 } :=
  claimC4_thm (startState false [c4pat] [c4adm] 9) c4row 3 (some 20210304) (some 20210309)
    c4adm (by decide) (by decide) (by decide) (by decide)

/-! ## Claim C5 -/

/-- Claim C5: `process_admission` parses both dates via the Normalizer
before computing the admission key, so every admission key added to the
cache is `(patient_id, parsed date_of_admission, hospital, room_number)`
and every document added to the store carries the parsed date values,
not the raw field strings. -/
theorem claimC5_thm (drop : Bool) (st : St) (r : Row) (pid : Nat) (st2 : St)
    (h : process_admission drop st r pid = some st2) :
    ∃ doa dd, parse_date r.date_of_admission = some doa
      ∧ parse_date r.discharge_date = some dd
      ∧ (∀ d ∈ st2.admissions, d ∉ st.admissions →
          d.date_of_admission = doa ∧ d.discharge_date = dd)
      ∧ (∀ e ∈ st2.acache, e ∉ st.acache → e.1 = (pid, doa, r.hospital, r.room_number)) := by
  unfold process_admission at h
  split at h
  · exact absurd h (by simp)
  next doa hdoa =>
    split at h
    · exact absurd h (by simp)
    next dd hdd =>
      refine ⟨doa, dd, hdoa, hdd, ?_⟩
      split at h
      · -- cache hit: the state is returned unchanged
        cases h
        exact ⟨fun d hd hnd => absurd hd hnd, fun e he hne => absurd he hne⟩
      · split at h
        · -- store hit: only the read counter changes
          cases h
          cases drop <;>
            exact ⟨fun d hd hnd => absurd hd hnd, fun e he hne => absurd he hne⟩
        · -- insert: the new document and cache entry carry the parsed dates
          cases h
          cases drop <;>
          · refine ⟨fun d hd hnd => ?_, fun e he hne => ?_⟩
            · simp only [List.mem_append, List.mem_singleton] at hd
              rcases hd with hd | hd
              · exact absurd hd hnd
              · subst hd; exact ⟨rfl, rfl⟩
            · simp only [List.mem_append, List.mem_singleton] at he
              rcases he with he | he
              · exact absurd he hne
              · subst he; rfl

/-- A row used to witness Claim C5 on the insert path. -/
def c5row : Row :=
  { name := some "di", age := some 25, gender := "F", blood_type := "AB-"
    date_of_admission := some "2022-06-07", discharge_date := some "2022-06-11"
    hospital := "H3", room_number := 301, medical_condition := "diabetes"
    doctor := "D3", insurance_provider := "I3", billing_amount := 900
    admission_type := "emergency", medication := "m3", test_results := "abnormal" }

/-- The state `process_admission` is applied to in the Claim C5 witness. -/
def c5st : St := startState true [] [] 0

/-- The state produced by `process_admission` in the Claim C5 witness. -/
def c5st2 : St := (process_admission true c5st c5row 0).getD c5st

/-- Witness for Claim C5 at a concrete state and row. -/
theorem claimC5_witness :
    ∃ doa dd, parse_date c5row.date_of_admission = some doa
      ∧ parse_date c5row.discharge_date = some dd
      ∧ (∀ d ∈ c5st2.admissions, d ∉ c5st.admissions →
          d.date_of_admission = doa ∧ d.discharge_date = dd)
      ∧ (∀ e ∈ c5st2.acache, e ∉ c5st.acache →
          e.1 = (0, doa, c5row.hospital, c5row.room_number)) :=
  claimC5_thm true c5st c5row 0 c5st2 (by decide)

/-! ## Claim C7 -/

/-- A row whose `age` field is missing (pandas `NaN`). -/
def c7row : Row :=
  { name := some "cy", age := none, gender := "M", blood_type := "O+"
    date_of_admission := some "2023-02-03", discharge_date := some "2023-02-08"
    hospital := "H4", room_number := 401, medical_condition := "injury"
    doctor := "D4", insurance_provider := "I4", billing_amount := 300
    admission_type := "urgent", medication := "m4", test_results := "ok" }

/-- Claim C7 half-fails on migration.py: a row with a missing `age` is
processed without raising (the run completes), but `age = data.age`
passes the raw pandas `NaN` through, so the created patient document
stores `NaN` as its age attribute — not `null` as the claim states.  The
superseded script.py variant (`convAge`) is the one that stores null. -/
theorem claimC7_eval :
    (migrationRun true [] [] 0 [c7row]).map (fun st => st.patients.map PatientDoc.age)
        = some [MAge.mnan]
      ∧ rawAge none = MAge.mnan
      ∧ convAge none = MAge.mnull
      ∧ MAge.mnan ≠ MAge.mnull := by decide

/-! ## Claim C10 -/

theorem process_admission_patient_fields {drop : Bool} {st : St} {r : Row} {pid : Nat}
    {st2 : St} (h : process_admission drop st r pid = some st2) :
    st2.pcache = st.pcache ∧ st2.created_patients = st.created_patients
      ∧ st2.patients = st.patients ∧ st2.resolvedLog = st.resolvedLog := by
  unfold process_admission at h
  split at h
  · exact absurd h (by simp)
  · split at h
    · exact absurd h (by simp)
    · split at h
      · cases h; exact ⟨rfl, rfl, rfl, rfl⟩
      · split at h
        · cases h; cases drop <;> exact ⟨rfl, rfl, rfl, rfl⟩
        · cases h; cases drop <;> exact ⟨rfl, rfl, rfl, rfl⟩

theorem process_patient_cache_counter (drop : Bool) (st : St) (r : Row)
    (h : st.pcache.length = st.created_patients) :
    (process_patient drop st r).2.pcache.length
      = (process_patient drop st r).2.created_patients := by
  unfold process_patient
  split
  · exact h
  · split
    · cases drop <;> exact h
    · cases drop <;> simp [h]

theorem runStep_cache_counter {drop : Bool} {st : St} {r : Row} {st2 : St}
    (h : runStep drop st r = some st2) (hinv : st.pcache.length = st.created_patients) :
    st2.pcache.length = st2.created_patients := by
  unfold runStep at h
  have h2 := process_admission_patient_fields h
  rw [h2.1, h2.2.1]
  exact process_patient_cache_counter drop st r hinv

theorem runRows_cache_counter (drop : Bool) : ∀ (rows : List Row) (st st2 : St),
    runRows drop st rows = some st2 → st.pcache.length = st.created_patients →
    st2.pcache.length = st2.created_patients
  | [], st, st2, h, hinv => by
      unfold runRows at h
      cases h
      exact hinv
  | r :: rs, st, st2, h, hinv => by
      unfold runRows at h
      split at h
      · exact absurd h (by simp)
      next stMid hstep =>
        exact runRows_cache_counter drop rs stMid st2 h (runStep_cache_counter hstep hinv)

/-- Claim C10: throughout a migration run, the patient identity cache
holds exactly as many entries as the `created_patients` counter.  The
theorem quantifies over every row sequence fed to the driver loop from a
run start state, so it covers the state after each prefix of the input
(the state after a prefix is the loop run over that prefix); a key is
cached exactly on insertion and never on an append-mode store hit. -/
theorem claimC10_thm (drop : Bool) (p0 : List PatientDoc) (a0 : List AdmissionDoc) (n0 : Nat)
    (rows : List Row) (st : St)
    (h : runRows drop (startState drop p0 a0 n0) rows = some st) :
    st.pcache.length = st.created_patients :=
  runRows_cache_counter drop rows _ st h rfl

/-- A patient document already in the store for the Claim C10 witness:
the first witness row resolves to it via an append-mode store hit. -/
def c10pat : PatientDoc :=
  { pid := 2, name := some "Ed", age := MAge.mint 55, gender := "M", blood_type := "A-" }

/-- A row resolving to `c10pat` through the store (no cache entry, no
counter increment). -/
def c10row1 : Row :=
  { name := some "ed", age := some 55, gender := "M", blood_type := "A-"
    date_of_admission := some "2020-09-09", discharge_date := some "2020-09-12"
    hospital := "H5", room_number := 501, medical_condition := "flu"
    doctor := "D5", insurance_provider := "I5", billing_amount := 100
    admission_type := "urgent", medication := "m5", test_results := "ok" }

/-- A row with a brand-new patient key (one cache entry, one insert). -/
def c10row2 : Row := { c10row1 with name := some "fay", gender := "F" }

/-- The final state of the Claim C10 witness run. -/
def c10st : St :=
  (runRows false (startState false [c10pat] [] 3) [c10row1, c10row2]).getD
    (startState false [c10pat] [] 3)

/-- Witness for Claim C10: a concrete append-mode run mixing a store-hit
row and an inserting row. -/
theorem claimC10_witness : c10st.pcache.length = c10st.created_patients :=
  claimC10_thm false [c10pat] [] 3 [c10row1, c10row2] c10st (by decide)

/-! ## Claim C8 -/

theorem dropDupGo_cons (seen : List Row) (r : Row) (t : List Row) :
    dropDupGo seen (r :: t)
      = if r ∈ seen then dropDupGo (r :: seen) t else r :: dropDupGo (r :: seen) t := rfl

theorem duplicatedGo_cons (seen : List Row) (r : Row) (t : List Row) :
    duplicatedGo seen (r :: t) = decide (r ∈ seen) :: duplicatedGo (r :: seen) t := rfl

theorem dropDupGo_sublist (seen : List Row) : ∀ rows, (dropDupGo seen rows).Sublist rows
  | [] => List.Sublist.refl []
  | r :: t => by
      rw [dropDupGo_cons]
      by_cases hr : r ∈ seen
      · rw [if_pos hr]
        exact (dropDupGo_sublist (r :: seen) t).cons r
      · rw [if_neg hr]
        exact (dropDupGo_sublist (r :: seen) t).cons₂ r

theorem mem_dropDupGo (x : Row) : ∀ (seen rows : List Row),
    x ∈ dropDupGo seen rows ↔ (x ∈ rows ∧ x ∉ seen)
  | seen, [] => by simp [dropDupGo]
  | seen, r :: t => by
      rw [dropDupGo_cons]
      by_cases hr : r ∈ seen
      · rw [if_pos hr, mem_dropDupGo x (r :: seen) t]
        simp only [List.mem_cons]
        constructor
        · exact fun h => ⟨Or.inr h.1, fun hs => h.2 (Or.inr hs)⟩
        · rintro ⟨h1 | h1, h2⟩
          · exact absurd (h1 ▸ hr) h2
          · exact ⟨h1, fun hs => hs.elim (fun hx => h2 (hx ▸ hr)) h2⟩
      · rw [if_neg hr]
        simp only [List.mem_cons, mem_dropDupGo x (r :: seen) t]
        constructor
        · rintro (h | ⟨h1, h2⟩)
          · exact ⟨Or.inl h, h ▸ hr⟩
          · exact ⟨Or.inr h1, fun hs => h2 (Or.inr hs)⟩
        · rintro ⟨h1 | h1, h2⟩
          · exact Or.inl h1
          · by_cases hx : x = r
            · exact Or.inl hx
            · exact Or.inr ⟨h1, fun hs => hs.elim hx h2⟩

theorem nodup_dropDupGo : ∀ (seen rows : List Row), (dropDupGo seen rows).Nodup
  | _, [] => List.nodup_nil
  | seen, r :: t => by
      rw [dropDupGo_cons]
      by_cases hr : r ∈ seen
      · rw [if_pos hr]
        exact nodup_dropDupGo (r :: seen) t
      · rw [if_neg hr]
        refine List.nodup_cons.2 ⟨fun hmem => ?_, nodup_dropDupGo (r :: seen) t⟩
        exact ((mem_dropDupGo r (r :: seen) t).1 hmem).2 (List.mem_cons_self r seen)

theorem count_dropDupGo : ∀ (seen rows : List Row),
    (duplicatedGo seen rows).count true + (dropDupGo seen rows).length = rows.length
  | _, [] => rfl
  | seen, r :: t => by
      rw [duplicatedGo_cons, dropDupGo_cons]
      have h1 := count_dropDupGo (r :: seen) t
      by_cases hr : r ∈ seen
      · simp [hr, List.count_cons]
        omega
      · simp [hr, List.count_cons]
        omega

theorem dropDupGo_keeps_first (r : Row) : ∀ (pre seen post : List Row),
    r ∉ seen → r ∉ pre →
    ∃ tail, dropDupGo seen (pre ++ r :: post) = dropDupGo seen pre ++ r :: tail
  | [], seen, post, hs, _ => by
      refine ⟨dropDupGo (r :: seen) post, ?_⟩
      simp [dropDupGo_cons, hs, dropDupGo]
  | q :: pre2, seen, post, hs, hp => by
      have hqr : r ≠ q := fun h => hp (h ▸ List.mem_cons_self q pre2)
      have hp2 : r ∉ pre2 := fun h => hp (List.mem_cons_of_mem _ h)
      have hs2 : r ∉ q :: seen := by
        intro h
        rcases List.mem_cons.1 h with h | h
        · exact hqr h
        · exact hs h
      obtain ⟨tail, ht⟩ := dropDupGo_keeps_first r pre2 (q :: seen) post hs2 hp2
      by_cases hq : q ∈ seen
      · refine ⟨tail, ?_⟩
        rw [List.cons_append, dropDupGo_cons, dropDupGo_cons, if_pos hq, if_pos hq, ht]
      · refine ⟨tail, ?_⟩
        rw [List.cons_append, dropDupGo_cons, dropDupGo_cons, if_neg hq, if_neg hq, ht,
          List.cons_append]

/-- Claim C8: the loader reports `df.duplicated().sum()`, the count of
fully-duplicate rows (full-row equality), and drops duplicates keeping
the first occurrence in input order.  Formally: the deduplicated list is
a subsequence of the input, has no duplicate rows, keeps exactly the
input's row values, its length plus the reported duplicate count is the
input length, and the first occurrence of a row stays in position (the
output is the dedup of the preceding input followed by that row). -/
theorem claimC8_thm (rows : List Row) :
    (dropDuplicates rows).Sublist rows
      ∧ (dropDuplicates rows).Nodup
      ∧ (∀ r : Row, r ∈ dropDuplicates rows ↔ r ∈ rows)
      ∧ dupCount rows + (dropDuplicates rows).length = rows.length
      ∧ ∀ (pre : List Row) (r : Row) (post : List Row),
          rows = pre ++ r :: post → r ∉ pre →
          ∃ tail, dropDuplicates rows = dropDuplicates pre ++ r :: tail := by
  refine ⟨dropDupGo_sublist [] rows, nodup_dropDupGo [] rows, fun r => ?_,
    count_dropDupGo [] rows, fun pre r post hrows hpre => ?_⟩
  · rw [dropDuplicates, mem_dropDupGo]
    simp
  · subst hrows
    exact dropDupGo_keeps_first r pre [] post (by simp) hpre

/-- A sample row for the Claim C8 witness. -/
def c8rowA : Row :=
  { name := some "gil", age := some 61, gender := "M", blood_type := "B-"
    date_of_admission := some "2019-05-06", discharge_date := some "2019-05-09"
    hospital := "H6", room_number := 601, medical_condition := "flu"
    doctor := "D6", insurance_provider := "I6", billing_amount := 250
    admission_type := "elective", medication := "m6", test_results := "ok" }

/-- A second, distinct sample row for the Claim C8 witness. -/
def c8rowB : Row := { c8rowA with room_number := 602 }

/-- Witness for Claim C8 on the input `[A, B, A]`: the dedup is nodup,
one duplicate is counted, and the first occurrence of `A` stays first. -/
theorem claimC8_witness :
    (dropDuplicates [c8rowA, c8rowB, c8rowA]).Nodup
      ∧ dupCount [c8rowA, c8rowB, c8rowA]
          + (dropDuplicates [c8rowA, c8rowB, c8rowA]).length = 3
      ∧ ∃ tail, dropDuplicates [c8rowA, c8rowB, c8rowA]
          = dropDuplicates [] ++ c8rowA :: tail :=
  ⟨(claimC8_thm [c8rowA, c8rowB, c8rowA]).2.1,
   (claimC8_thm [c8rowA, c8rowB, c8rowA]).2.2.2.1,
   (claimC8_thm [c8rowA, c8rowB, c8rowA]).2.2.2.2 [] c8rowA [c8rowB, c8rowA] rfl
     (by decide)⟩

/-! ## Claim C1 -/

/-- A row whose age is missing, for the Claim C1 failing input. -/
def c1rowA : Row :=
  { name := some "hal", age := none, gender := "M", blood_type := "O-"
    date_of_admission := some "2018-11-12", discharge_date := some "2018-11-15"
    hospital := "H7", room_number := 701, medical_condition := "flu"
    doctor := "D7", insurance_provider := "I7", billing_amount := 400
    admission_type := "urgent", medication := "m7", test_results := "ok" }

/-- A second row with the same patient identity key as `c1rowA` (name,
missing age, gender, blood type all equal) but a different hospital, so
full-row deduplication keeps both rows. -/
def c1rowB : Row := { c1rowA with hospital := "H7b" }

/-- Claim C1 fails on migration.py: in a fresh-mode (reset) run — the
default configuration, with no store checks — the patient cache key
carries the raw pandas `NaN` for a missing age, and `NaN`-bearing dict
keys never match, so each of two rows sharing the identity key
`(normalize_name(name), missing age, gender, blood_type)` inserts its
own patient.  After the run the one identity key matches TWO stored
patient documents (the repository's own `test_no_duplicate_patients`
groups these together and would fail), and the two rows resolve to the
DIFFERENT identifiers 0 and 2.  The superseded script.py variant
converts a missing age to `None`, whose keys do compare equal. -/
theorem claimC1_eval :
    (migrationRun true [] [] 0 [c1rowA, c1rowB]).map
        (fun st =>
          ((st.patients.filter fun d => decide (pkeyOfDoc d = patientKeyOfRow c1rowA)).length,
            st.created_patients, st.resolvedLog))
      = some (2, 2, [(patientKeyOfRow c1rowA, 0), (patientKeyOfRow c1rowA, 2)]) := by decide

/-! ## Claim C9 -/

/-- A row whose age is missing, for the Claim C9 failing input. -/
def c9rowA : Row :=
  { name := some "ida", age := none, gender := "F", blood_type := "A+"
    date_of_admission := some "2017-01-02", discharge_date := some "2017-01-06"
    hospital := "H8", room_number := 801, medical_condition := "flu"
    doctor := "D8", insurance_provider := "I8", billing_amount := 600
    admission_type := "urgent", medication := "m8", test_results := "ok" }

/-- A second row with the same patient identity key as `c9rowA` but a
different hospital. -/
def c9rowB : Row := { c9rowA with hospital := "H8b" }

/-- The state after the fresh-mode first run of the Claim C9 failing
input: two `NaN`-age patients (ids 0 and 2), one admission each. -/
def c9st1 : St :=
  (migrationRun true [] [] 0 [c9rowA, c9rowB]).getD (startState true [] [] 0)

/-- Claim C9 fails on migration.py: after the fresh-mode run over the
two missing-age rows (which creates two `NaN`-age patients with one
admission each), the append-mode re-run on the same input resolves BOTH
rows to the first `find_one` match (MongoDB matches `NaN` against `NaN`,
and the found id is never cached), so the second row's admission filter
`(first patient id, date, second hospital, room)` misses the stored
admission owned by the second patient and a new admission is inserted:
the second run creates 1 admission, not 0, and the admissions
collection grows from 2 to 3 documents. -/
theorem claimC9_eval :
    migrationRun true [] [] 0 [c9rowA, c9rowB] = some c9st1
    ∧ (c9st1.patients.length, c9st1.admissions.length,
        c9st1.created_patients, c9st1.created_admissions) = (2, 2, 2, 2)
    ∧ (migrationRun false c9st1.patients c9st1.admissions c9st1.nextId [c9rowA, c9rowB]).map
        (fun st2 => (st2.created_patients, st2.created_admissions,
          st2.patients.length, st2.admissions.length))
      = some (0, 1, 2, 3) := by decide

end Migration
